import Mathlib

set_option maxRecDepth 100000
set_option maxHeartbeats 4000000

/-!
Verification development for the `skill-boost-consuming-apis` repository: a
paginated data service (`src/api/main.py`) that deterministically generates a
dataset of device measurements and serves it page by page (optionally injecting
random failures), together with ingestion clients implementing three
concurrency strategies (`src/main_sync.py`, `src/main_multithreaded_measurements.py`,
`src/main_async_measurements.py`) and a Stack Exchange client
(`src/main_multithreading.py`).

The embedding below translates the Python sources into executable Lean
definitions.  Machine integers are modelled as `Nat` with explicit reductions
`% 2 ^ 32` where CPython's C implementation truncates to 32 bits.  The CPython
`random` module (a seeded MT19937 Mersenne Twister) and `uuid.uuid5` (SHA-1
based) are part of the observable behaviour of `generate_measurements`, so they
are embedded faithfully; the embedded generator is cross-checked below against
the concrete output stream of CPython's `random.Random(42)`.
-/

/-! ## CPython `random`: Mersenne Twister MT19937

Translated from CPython `_randommodule.c` (`init_genrand`, `init_by_array`,
`genrand_uint32`, `random_seed`) and `random.py` (`getrandbits`,
`_randbelow_with_getrandbits`, `randint`, `choice`, `random`, `uniform`).
The 624-word state array `mt[0..623]` of 32-bit words is represented as the
single natural number `Σ i, mt[i] * 2 ^ (32 * i)`; reading and writing word
`i` are the bit-field operations `mget` and `mset` below.
-/

/-- Semantically the identity on `k`; evaluating it forces the number `v`
first.  The long seeding and twist loops below thread their state through
hundreds of iterations; forcing each iteration's freshly written state keeps
every reduction chain shallow, so the definitional evaluations in the concrete
theorems below reduce without overflowing the elaborator or kernel stack.  It
does not change any value. -/
def seqN (v : Nat) (k : α) : α := if v = 0 then k else k

/-- Read word `i` of the packed generator state. -/
def mget (mt : Nat) (i : Nat) : Nat := (mt >>> (32 * i)) &&& 4294967295

/-- Write word `i` of the packed generator state: clear the 32-bit field and
insert `v` (all written values are already reduced `% 2 ^ 32`). -/
def mset (mt : Nat) (i v : Nat) : Nat :=
  mt - (mget mt i <<< (32 * i)) + ((v &&& 4294967295) <<< (32 * i))

/-- Forward construction of `init_genrand`'s loop:
`mt[i] = (1812433253 * (mt[i-1] ^ (mt[i-1] >> 30)) + i) & 0xffffffff`,
producing the words at indices `i, i+1, ...` given the previous word. -/
def igLoop (mt prev i : Nat) : Nat → Nat
  | 0 => mt
  | n + 1 =>
    let v := (1812433253 * (prev ^^^ (prev >>> 30)) + i) % 4294967296
    seqN v (igLoop (mset mt i v) v (i + 1) n)

/-- CPython `init_genrand(s)`: the 624-word state seeded from a single word. -/
def init_genrand (s : Nat) : Nat :=
  igLoop (s % 4294967296) (s % 4294967296) 1 623

/-- First mixing loop of `init_by_array` (multiplier 1664525), run for `n`
iterations with cursor `i` into the state and cursor `j` into the key. -/
def ibaLoop1 (key : List Nat) (mt : Nat) (i j : Nat) : Nat → Nat
  | 0 => mt
  | n + 1 =>
    let prev := mget mt (i - 1)
    let v := ((mget mt i ^^^ (((prev ^^^ (prev >>> 30)) * 1664525) % 4294967296))
              + key.getD j 0 + j) % 4294967296
    let mt' := mset mt i v
    let i' := i + 1
    let p := if i' ≥ 624 then (mset mt' 0 (mget mt' 623), 1) else (mt', i')
    let j' := if j + 1 ≥ key.length then 0 else j + 1
    seqN p.1 (ibaLoop1 key p.1 p.2 j' n)

/-- Second mixing loop of `init_by_array` (multiplier 1566083941); the C code
subtracts the index `i` in 32-bit unsigned arithmetic, modelled as adding
`2^32 - i` before the reduction. -/
def ibaLoop2 (mt : Nat) (i : Nat) : Nat → Nat
  | 0 => mt
  | n + 1 =>
    let prev := mget mt (i - 1)
    let v := ((mget mt i ^^^ (((prev ^^^ (prev >>> 30)) * 1566083941) % 4294967296))
              + 4294967296 - i) % 4294967296
    let mt' := mset mt i v
    let i' := i + 1
    let p := if i' ≥ 624 then (mset mt' 0 (mget mt' 623), 1) else (mt', i')
    seqN p.1 (ibaLoop2 p.1 p.2 n)

/-- CPython `init_by_array(key)`: `init_genrand(19650218)` followed by the two
mixing loops (`max(624, len key)` and `623` iterations) and `mt[0] = 0x80000000`. -/
def init_by_array (key : List Nat) : Nat :=
  let mt := init_genrand 19650218
  let mt := ibaLoop1 key mt 1 0 (max 624 key.length)
  let mt := ibaLoop2 mt 2 623
  mset mt 0 2147483648

/-- The full generator state: the 624 packed words plus the output index `mti`. -/
structure MTState where
  mt : Nat
  mti : Nat

/-- CPython `random_seed(n)` for `0 ≤ n < 2^32`: the key array is the single
32-bit digit `[n]` and the output index is reset to 624 (forcing a twist on
the first extraction).  `random.seed(42)` in the source is `seedState 42`. -/
def seedState (n : Nat) : MTState :=
  { mt := init_by_array [n], mti := 624 }

/-- One step of the state-regeneration ("twist") loops: reads `mt[kk]`,
`mt[kk+1]` and `mt[kk+off]` from the partially updated array and writes
`mt[kk]`, exactly as the in-place C loops do (`off` is `397` resp. `397-624`,
pre-applied by the caller). -/
def twistStep (mt : Nat) (kk src : Nat) : Nat :=
  let y := (mget mt kk &&& 2147483648) ||| (mget mt (kk + 1) &&& 2147483647)
  mset mt kk (mget mt src ^^^ (y >>> 1) ^^^ (if y % 2 = 1 then 2567483615 else 0))

/-- First twist loop: `kk = 0 .. 226`, source index `kk + 397`. -/
def twistLoopA (mt : Nat) (kk : Nat) : Nat → Nat
  | 0 => mt
  | n + 1 =>
    let mt' := twistStep mt kk (kk + 397)
    seqN mt' (twistLoopA mt' (kk + 1) n)

/-- Second twist loop: `kk = 227 .. 622`, source index `kk + 397 - 624`. -/
def twistLoopB (mt : Nat) (kk : Nat) : Nat → Nat
  | 0 => mt
  | n + 1 =>
    let mt' := twistStep mt kk (kk + 397 - 624)
    seqN mt' (twistLoopB mt' (kk + 1) n)

/-- Full state regeneration (the MT19937 twist), including the final element
`kk = 623` whose `mt[kk+1]` read wraps to the freshly written `mt[0]`. -/
def twist (mt : Nat) : Nat :=
  let mt := twistLoopA mt 0 227
  let mt := twistLoopB mt 227 396
  let y := (mget mt 623 &&& 2147483648) ||| (mget mt 0 &&& 2147483647)
  mset mt 623 (mget mt 396 ^^^ (y >>> 1) ^^^ (if y % 2 = 1 then 2567483615 else 0))

/-- CPython `genrand_uint32`: twist when the index is exhausted, then extract
and temper one 32-bit word. -/
def genrand (s : MTState) : Nat × MTState :=
  let s := if s.mti ≥ 624 then { mt := twist s.mt, mti := 0 } else s
  let y := mget s.mt s.mti
  let y := y ^^^ (y >>> 11)
  let y := y ^^^ ((y <<< 7) &&& 2636928640)
  let y := y ^^^ ((y <<< 15) &&& 4022730752)
  let y := y ^^^ (y >>> 18)
  (y, { mt := s.mt, mti := s.mti + 1 })

/-- `Random.getrandbits(k)` for `0 < k ≤ 32`: the top `k` bits of one word. -/
def getrandbits (k : Nat) (s : MTState) : Nat × MTState :=
  let (y, s) := genrand s
  (y >>> (32 - k), s)

/-- Bit length of `n` (CPython `int.bit_length`), by fueled halving. -/
def bitLenAux : Nat → Nat → Nat
  | 0, _ => 0
  | fuel + 1, n => if n = 0 then 0 else bitLenAux fuel (n / 2) + 1

/-- `n.bit_length()` for the word-sized values used here. -/
def bitLen (n : Nat) : Nat := bitLenAux 64 n

/-- The rejection loop of `_randbelow_with_getrandbits`: redraw `k` bits while
the draw is `≥ n`.  CPython's loop is unbounded; it is given explicit fuel
here (returning 0 on exhaustion), and every concrete evaluation below stays
far below the bound. -/
def randbelowLoop (n k : Nat) (s : MTState) : Nat → Nat × MTState
  | 0 => (0, s)
  | fuel + 1 =>
    let (r, s') := getrandbits k s
    if r < n then (r, s') else randbelowLoop n k s' fuel

/-- `Random._randbelow(n)` for `n > 0`. -/
def randbelow (n : Nat) (s : MTState) : Nat × MTState :=
  randbelowLoop n (bitLen n) s 1000

/-- `Random.randint(a, b)` = `a + _randbelow(b - a + 1)`. -/
def pyrandint (a b : Nat) (s : MTState) : Nat × MTState :=
  let (r, s) := randbelow (b + 1 - a) s
  (a + r, s)

/-- `Random.choice(seq)` = `seq[_randbelow(len(seq))]`. -/
def pychoice (seq : List String) (s : MTState) : String × MTState :=
  let (r, s) := randbelow seq.length s
  (seq.getD r "", s)

/-- `Random.random()` returns `(a * 2^26 + b) / 2^53` with `a` the top 27 and
`b` the top 26 bits of two consecutive words; only the 53-bit numerator is
kept (the float value is the fixed map `u ↦ u / 2^53` of it). -/
def pyrandom53 (s : MTState) : Nat × MTState :=
  let (a, s) := genrand s
  let (b, s) := genrand s
  ((a >>> 5) * 67108864 + (b >>> 6), s)

/-! ## `uuid.uuid5` over SHA-1

`uuid.uuid5(NAMESPACE_DNS, name)` hashes the 16 namespace bytes followed by
the UTF-8 bytes of `name` with SHA-1, keeps the first 16 digest bytes, forces
the version (5) and variant bits, and renders the 8-4-4-4-12 lowercase hex
string.  Bytes are `Nat < 256`; all words are `Nat < 2^32`.
-/

/-- Left rotation of a 32-bit word by `k`. -/
def rotl32 (k x : Nat) : Nat := ((x <<< k) &&& 4294967295) ||| (x >>> (32 - k))

/-- Big-endian assembly of one 32-bit word from four bytes. -/
def word32 (a b c d : Nat) : Nat := a * 16777216 + b * 65536 + c * 256 + d

/-- Group a byte list into big-endian 32-bit words (length a multiple of 4). -/
def bytesToWords : List Nat → List Nat
  | a :: b :: c :: d :: rest => word32 a b c d :: bytesToWords rest
  | _ => []

/-- SHA-1 message schedule: given the reversed list of words produced so far
(head = most recent), produce `n` further words
`w[i] = rotl1 (w[i-3] ^^^ w[i-8] ^^^ w[i-14] ^^^ w[i-16])`. -/
def sha1Extend (racc : List Nat) : Nat → List Nat
  | 0 => racc
  | n + 1 =>
    let w := rotl32 1 (racc.getD 2 0 ^^^ racc.getD 7 0 ^^^ racc.getD 13 0 ^^^ racc.getD 15 0)
    sha1Extend (w :: racc) n

/-- The round function and constant for SHA-1 round `i`. -/
def sha1FK (i b c d : Nat) : Nat × Nat :=
  if i < 20 then ((b &&& c) ||| ((4294967295 - b) &&& d), 1518500249)
  else if i < 40 then (b ^^^ c ^^^ d, 1859775393)
  else if i < 60 then ((b &&& c) ||| (b &&& d) ||| (c &&& d), 2400959708)
  else (b ^^^ c ^^^ d, 3395469782)

/-- The 80 SHA-1 rounds over one block's schedule. -/
def sha1Rounds (i : Nat) (w : List Nat) (a b c d e : Nat) : Nat → Nat × Nat × Nat × Nat × Nat
  | 0 => (a, b, c, d, e)
  | n + 1 =>
    let fk := sha1FK i b c d
    let t := (rotl32 5 a + fk.1 + e + fk.2 + w.getD i 0) % 4294967296
    sha1Rounds (i + 1) w t a (rotl32 30 b) c d n

/-- Compression of one 64-byte block into the running state `h0..h4`. -/
def sha1Block (h : List Nat) (blockWords : List Nat) : List Nat :=
  let w := (sha1Extend blockWords.reverse 64).reverse
  let r := sha1Rounds 0 w (h.getD 0 0) (h.getD 1 0) (h.getD 2 0) (h.getD 3 0) (h.getD 4 0) 80
  [(h.getD 0 0 + r.1) % 4294967296,
   (h.getD 1 0 + r.2.1) % 4294967296,
   (h.getD 2 0 + r.2.2.1) % 4294967296,
   (h.getD 3 0 + r.2.2.2.1) % 4294967296,
   (h.getD 4 0 + r.2.2.2.2) % 4294967296]

/-- Process the padded message, 16 words (64 bytes) at a time (the fuel is
instantiated with the word count, which bounds the block count). -/
def sha1Blocks (h : List Nat) (words : List Nat) : Nat → List Nat
  | 0 => h
  | n + 1 =>
    match words with
    | [] => h
    | _ => sha1Blocks (sha1Block h (words.take 16)) (words.drop 16) n

/-- SHA-1 padding: `0x80`, zeros to 56 mod 64, then the 64-bit bit length. -/
def sha1Pad (msg : List Nat) : List Nat :=
  let zeros := (119 - msg.length % 64) % 64
  let bits := msg.length * 8
  msg ++ 128 :: List.replicate zeros 0
      ++ [bits / 72057594037927936 % 256, bits / 281474976710656 % 256,
          bits / 1099511627776 % 256, bits / 4294967296 % 256,
          bits / 16777216 % 256, bits / 65536 % 256,
          bits / 256 % 256, bits % 256]

/-- Split a 32-bit word into its four big-endian bytes. -/
def wordBytes (w : Nat) : List Nat :=
  [w / 16777216 % 256, w / 65536 % 256, w / 256 % 256, w % 256]

/-- The 20-byte SHA-1 digest of a byte string. -/
def sha1 (msg : List Nat) : List Nat :=
  let ws := bytesToWords (sha1Pad msg)
  let h := sha1Blocks [1732584193, 4023233417, 2562383102, 271733878, 3285377520] ws ws.length
  (h.map wordBytes).flatten

/-- The 16 bytes of `uuid.NAMESPACE_DNS` (6ba7b810-9dad-11d1-80b4-00c04fd430c8). -/
def namespaceDNS : List Nat :=
  [107, 167, 184, 16, 157, 173, 17, 209, 128, 180, 0, 192, 79, 212, 48, 200]

/-- ASCII decimal digits of `n` (fueled division loop). -/
def decDigitsAux : Nat → Nat → List Nat
  | 0, _ => []
  | fuel + 1, n => if n < 10 then [48 + n] else decDigitsAux fuel (n / 10) ++ [48 + n % 10]

/-- The UTF-8 bytes of `str(n)` for a natural number `n`. -/
def natAscii (n : Nat) : List Nat := decDigitsAux 30 n

/-- The UTF-8 bytes of the uuid5 name `f"measurement-{i}"` used for record `i`
("measurement-" is 109,101,97,115,117,114,101,109,101,110,116,45). -/
def measurementName (i : Nat) : List Nat :=
  [109, 101, 97, 115, 117, 114, 101, 109, 101, 110, 116, 45] ++ natAscii i

/-- The 16 uuid bytes of `uuid5(NAMESPACE_DNS, name)`: first 16 SHA-1 digest
bytes with the version nibble of byte 6 forced to 5 and the variant bits of
byte 8 forced to `10`. -/
def uuid5Bytes (name : List Nat) : List Nat :=
  let d := (sha1 (namespaceDNS ++ name)).take 16
  let d := d.set 6 ((d.getD 6 0 &&& 15) ||| 80)
  d.set 8 ((d.getD 8 0 &&& 63) ||| 128)

/-- Lowercase hex character of a nibble (as a character code). -/
def hexDigit (n : Nat) : Nat := if n < 10 then 48 + n else 87 + n

/-- The two lowercase hex character codes of one byte. -/
def byteHex (b : Nat) : List Nat := [hexDigit (b / 16), hexDigit (b % 16)]

/-- The character codes of `str(uuid5(NAMESPACE_DNS, name))`: 32 lowercase hex
digits in 8-4-4-4-12 groups separated by `-` (code 45). -/
def uuid5Codes (name : List Nat) : List Nat :=
  let hx := (uuid5Bytes name).map byteHex
  ((hx.take 4).flatten) ++ 45 :: ((hx.drop 4).take 2).flatten ++ 45 :: ((hx.drop 6).take 2).flatten
    ++ 45 :: ((hx.drop 8).take 2).flatten ++ 45 :: (hx.drop 10).flatten

/-- The id string of record `i`: `str(uuid.uuid5(uuid.NAMESPACE_DNS, f"measurement-{i}"))`. -/
def uuid5Str (i : Nat) : String :=
  String.mk ((uuid5Codes (measurementName i)).map Char.ofNat)

/-! ## Record Generator: `generate_measurements` (src/api/main.py, lines 36-74) -/

/-- One generated record.  `timestamp` is the minute offset from the fixed
epoch `datetime(2025, 6, 18)` (the code stores the epoch plus
`random_minutes * timedelta(minutes=1)`, so comparisons of timestamps are
comparisons of the offsets).  The four numeric attributes are kept as the
53-bit numerator `u` of the underlying `random.uniform` draw; the served float
is the fixed deterministic map of `u` (for example
`temperature = round(15.0 + 20.0 * u / 2^53, 2)`), so equality of numerators
decides equality of the served values. -/
structure Measurement where
  id : String
  device_id : String
  timestamp : Nat
  temperature : Nat
  humidity : Nat
  pressure : Nat
  battery_level : Nat
deriving DecidableEq

/-- The device pool `[f"device_{i}" for i in range(1, 6)]`. -/
def deviceIdPool : List String :=
  ["device_1", "device_2", "device_3", "device_4", "device_5"]

/-- One iteration of the generation loop for index `i`: `random.choice` of the
pool (only when no `device_id` filter is given), `random.randint(0, 24*60)`
minutes, the uuid5 id, and the four `random.uniform` draws, in source order. -/
def genOne (device_id : Option String) (i : Nat) (s : MTState) : Measurement × MTState :=
  let sel := match device_id with
    | some d => (d, s)
    | none => pychoice deviceIdPool s
  let mins := pyrandint 0 1440 sel.2
  let mid := uuid5Str i
  let t := pyrandom53 mins.2
  let h := pyrandom53 t.2
  let p := pyrandom53 h.2
  let b := pyrandom53 p.2
  ({ id := mid, device_id := sel.1, timestamp := mins.1,
     temperature := t.1, humidity := h.1, pressure := p.1, battery_level := b.1 }, b.2)

/-- The `for i in range(count)` loop, threading the module RNG state
(`seqN` forces each record's timestamp draw in generation order, keeping the
reduction shallow; it changes no value). -/
def genLoop (device_id : Option String) : Nat → Nat → MTState → List Measurement
  | _, 0, _ => []
  | i, n + 1, s =>
    let m := genOne device_id i s
    seqN m.1.timestamp (m.1 :: genLoop device_id (i + 1) n m.2)

/-- The sort relation of `measurements.sort(key=lambda x: x.timestamp,
reverse=True)`: descending by timestamp.  Python's sort is stable; a stable
sort's output is uniquely determined by the relation and the input order, so
it is modelled by the structurally recursive stable `List.insertionSort`. -/
def tsDesc (a b : Measurement) : Prop := b.timestamp ≤ a.timestamp

instance : DecidableRel tsDesc := fun _ _ => Nat.decLe _ _

/-- `generate_measurements(count, device_id)` (src/api/main.py lines 36-74).
The incoming module RNG state `g` is an explicit parameter; the function's
first action is `random.seed(42)`, which replaces it. -/
def generate_measurements (count : Nat) (device_id : Option String) (g : MTState) :
    List Measurement :=
  let _ := g
  let s := seedState 42
  List.insertionSort tsDesc (genLoop device_id 0 count s)

/-! ### Cross-checks of the embedded CPython `random` and `uuid`

The following facts pin the embedding to the observed behaviour of CPython:
the first outputs of `random.Random(42)` and the uuid5 strings of two record
indices, byte for byte. -/

/-- A throwaway module RNG state (the generator reseeds before any draw, so
any value works wherever an incoming state is needed). -/
def g0 : MTState := { mt := 0, mti := 624 }


/-- The code points of a string (Python compares strings pointwise by code
point, lexicographically). -/
def strCodes (s : String) : List Nat := s.data.map Char.toNat

/-- Strict lexicographic order on code-point lists: the order Python uses to
compare the uuid id strings. -/
def codesLt : List Nat → List Nat → Bool
  | [], [] => false
  | [], _ :: _ => true
  | _ :: _, [] => false
  | a :: as, b :: bs => if a < b then true else if b < a then false else codesLt as bs

/-- Concrete evaluation witnessing the tie-break behaviour of the generator:
in `generate_measurements(22, None)` the records at sorted positions 1 and 2
have equal timestamps while the id of position 2 is strictly smaller than the
id of position 1 — the tie is kept in generation order (indices 10 and 21),
not re-ordered to ascending identifiers. -/
def tieCheck : Bool :=
  match (generate_measurements 22 none g0).drop 1 with
  | a :: b :: _ =>
    a.timestamp == b.timestamp && codesLt (strCodes b.id) (strCodes a.id)
  | _ => false

/-! ## Pagination Engine and Data Service (src/api/main.py, lines 91-149) -/

/-- One page slice.  `fastapi_pagination`'s default `paginate` with
`Params(page, size)` serves `items[(page-1)*size : (page-1)*size + size]`;
Python slicing clamps both bounds to `[0, len]` and yields the empty sequence
when the start is at or past the end, which is exactly `drop`/`take` on
`List`. -/
def slicePage (d : List α) (page size : Nat) : List α :=
  (d.drop ((page - 1) * size)).take size

/-- The page envelope returned by the paginated endpoints (the response fields
the clients read). -/
structure PageEnvelope where
  items : List Measurement
  page : Nat
  size : Nat
deriving DecidableEq

/-- `GET /measurements/page` (src/api/main.py lines 91-113): regenerate the
dataset for `total` and serve the requested slice.  `g` is the module RNG
state on entry (discarded by the generator's `random.seed(42)`). -/
def get_measurements_page (total : Nat) (device_id : Option String) (page size : Nat)
    (g : MTState) : PageEnvelope :=
  { items := slicePage (generate_measurements total device_id g) page size,
    page := page, size := size }

/-- The comparison `unseeded_random.random() < 0.3` of the unreliable
endpoint, exactly as binary64 floats compare: `random()` is `u / 2 ^ 53` for a
53-bit draw `u` from a freshly constructed `random.Random()` (seeded from the
OS, sharing no state with the module generator), and the literal `0.3` rounds
to `5404319552844595 / 2 ^ 54`, so the comparison holds iff
`2 * u < 5404319552844595`. -/
def maybeFail (u : Nat) : Bool := 2 * u < 5404319552844595

/-- `GET /measurements/very-reliable` (src/api/main.py lines 116-149): roll
the independent injector draw `u` first; on failure raise HTTP 500 (the
`Except.error` case) and otherwise serve exactly the deterministic page. -/
def get_measurements_unreliable (total : Nat) (device_id : Option String)
    (page size : Nat) (u : Nat) (g : MTState) : Except Nat PageEnvelope :=
  if maybeFail u then .error 500
  else .ok (get_measurements_page total device_id page size g)

/-! ## Sequential ingestion (src/main_sync.py, lines 101-146)

`ingest_measurements` fetches pages `1, 2, ..., max_pages` one at a time from
the deterministic page endpoint, extends the accumulator with each page's
`items`, and breaks as soon as a page has fewer than `page_size` items.  The
`if not response: break` branch cannot fire against the deterministic service
model (the envelope is always a non-empty JSON object, hence truthy).  The
embedding returns the accumulated items together with the list of page numbers
actually requested. -/

/-- The `for page in range(1, max_pages + 1)` loop over the remaining page
numbers, against a dataset `d` served through `slicePage`. -/
def seqFetchLoop (d : List α) (page_size : Nat) : List Nat → List α × List Nat
  | [] => ([], [])
  | p :: rest =>
    let items := slicePage d p page_size
    if items.length < page_size then (items, [p])
    else
      let r := seqFetchLoop d page_size rest
      (items ++ r.1, p :: r.2)

/-- `ingest_measurements(max_pages, page_size, total)` with the service's
dataset for `total` abstracted as `d`: the ordered items it accumulates and
the pages it requests. -/
def ingest_measurements (d : List α) (max_pages page_size : Nat) :
    List α × List Nat :=
  seqFetchLoop d page_size (List.range' 1 max_pages)

/-! ## Multithreaded ingestion (src/main_multithreaded_measurements.py) -/

/-- The exception raised by `response.raise_for_status()` for a non-2xx
status. -/
structure HTTPError where
  status : Nat
deriving DecidableEq

/-- Tenacity's `RetryError`, raised when `stop_after_attempt` gives up; it
wraps the final attempt's exception. -/
structure RetryError where
  lastAttempt : HTTPError
deriving DecidableEq

/-- The attempt loop that the decorator
`@retry(retry=retry_if_exception_type(HTTPError), wait=wait_fixed(0.5),
stop=stop_after_attempt(maxRetries))` wraps around `fetch_page`:
`outcomes n` is what the `n`-th call of the body does (return a payload or
raise `HTTPError`).  Attempts are numbered from 1; after a failed attempt
numbered `≥ maxRetries` tenacity stops and raises `RetryError`.  The fuel is
instantiated with `maxRetries`, which bounds the attempt count.  The result
carries the number of calls actually made. -/
def retryAttemptLoop (outcomes : Nat → Except HTTPError α) (maxRetries attempt : Nat) :
    Nat → Except RetryError α × Nat
  | 0 => (.error ⟨⟨0⟩⟩, attempt - 1)
  | fuel + 1 =>
    match outcomes attempt with
    | .ok a => (.ok a, attempt)
    | .error e =>
      if maxRetries ≤ attempt then (.error ⟨e⟩, attempt)
      else retryAttemptLoop outcomes maxRetries (attempt + 1) fuel

/-- `fetch_page` under its retry decorator (src/main_multithreaded_measurements.py
lines 40-79): the result and the number of HTTP calls made. -/
def fetch_page (outcomes : Nat → Except HTTPError α) (maxRetries : Nat) :
    Except RetryError α × Nat :=
  retryAttemptLoop outcomes maxRetries 1 maxRetries

/-- `MAX_RETRIES = 5` (src/main_multithreaded_measurements.py line 37). -/
def MAX_RETRIES : Nat := 5

/-- The result-collection loop of `ingest_endpoint` (lines 170-187): futures
are consumed in completion order (`as_completed`), given here as the list
`order` of page numbers; `results p` is what page `p`'s future holds.
`future.result()` re-raises a stored exception, which escapes the loop and
`ingest_endpoint` itself — modelled by the `Except.error` case, which discards
the accumulator.  Otherwise the page's items are appended in completion order
and the loop breaks at the first page shorter than `page_size`. -/
def ingestEndpointLoop (results : Nat → Except RetryError (List α)) (page_size : Nat) :
    List Nat → List α → Except RetryError (List α)
  | [], acc => .ok acc
  | p :: rest, acc =>
    match results p with
    | .error e => .error e
    | .ok items =>
      if items.length < page_size then .ok (acc ++ items)
      else ingestEndpointLoop results page_size rest (acc ++ items)

/-- `ingest_endpoint(url, endpoint, max_pages, page_size, total)` for a given
completion order of the submitted page futures (the worker-pool strategy; the
set of submitted pages is `range(1, max_pages + 1)`, and `order` is the order
in which `as_completed` yields them). -/
def ingest_endpoint (results : Nat → Except RetryError (List α)) (page_size : Nat)
    (order : List Nat) : Except RetryError (List α) :=
  ingestEndpointLoop results page_size order []

/-- The per-page future results when the service is the deterministic page
endpoint over dataset `d`: every fetch succeeds with the page's slice. -/
def detResults (d : List α) (size : Nat) : Nat → Except RetryError (List α) :=
  fun p => .ok (slicePage d p size)

/-! ## Asynchronous ingestion (src/main_async_measurements.py, lines 103-164)

`ingest_measurements_async` creates one task per page `1 .. max_pages` up
front, awaits them all with `asyncio.gather(..., return_exceptions=True)`, and
then walks the results in page order: an exception or a `None`/falsy result is
skipped with `continue`, otherwise the page's `items` extend the accumulator.
There is no break: every page's result is inspected. -/

/-- The task-fan-out strategy: `results p = none` models a failed fetch
(exception or `None`); pages are processed in ascending page order. -/
def ingest_measurements_async (results : Nat → Option (List α)) (max_pages : Nat) :
    List α :=
  ((List.range' 1 max_pages).map (fun p => (results p).getD [])).flatten

/-! ## Export collaborator: `save_to_csv` (src/main_sync.py, lines 52-98) -/

/-- The fixed CSV header (lines 78-86). -/
def csvFields : List String :=
  ["id", "device_id", "timestamp", "temperature", "humidity", "pressure",
   "battery_level"]

/-- One CSV data row of a measurement (the numeric cells are decimal
renderings; only presence and count matter to the claims below). -/
def measurementRow (m : Measurement) : List String :=
  [m.id, m.device_id, toString m.timestamp, toString m.temperature,
   toString m.humidity, toString m.pressure, toString m.battery_level]

/-- `save_to_csv(measurements)` as the list of rows written to the sink: an
empty input still produces a file with the single explicit marker row
`["No measurements available"]`; otherwise the header followed by one row per
measurement. -/
def save_to_csv (measurements : List Measurement) : List (List String) :=
  if measurements.isEmpty then [["No measurements available"]]
  else csvFields :: measurements.map measurementRow

/-! ## Stack Exchange client (src/main_multithreading.py)

`call` builds `Retrying(retry=retry_if_result(should_backoff),
wait=custom_wait, stop=stop_after_attempt(max_retries))` and runs

```
for attempt in retryer:
    with attempt:
        with session.get(...) as response:
            if response.status_code in (200, 201):
                return response.json()
            response.raise_for_status()
```

Tenacity's iterator protocol gives this loop the following semantics, which
the embedding reproduces:

* On a 2xx status, `return response.json()` leaves `call` from inside the
  `with attempt:` block.  `AttemptManager.__exit__` records `None` as the
  attempt's result and the generator driving the `for` loop is abandoned, so
  the retry predicate is never consulted: the payload is returned after
  exactly one HTTP request and no sleep, whether or not the body carries a
  `backoff` hint.
* On a non-2xx status, `raise_for_status` raises `HTTPError` inside the
  block; `AttemptManager.__exit__` swallows it and records the failure.  The
  next `Retrying.iter` step evaluates `retry_if_result(should_backoff)`,
  which returns `False` for a failed outcome, so the retryer does not retry
  and re-raises the stored exception: the error propagates after exactly one
  request, and `custom_wait` is never invoked.

`should_backoff` and `custom_wait` themselves are embedded directly from
lines 33-41. -/

/-- A Stack Exchange response body: the fields the client reads.  `backoff`
is the optional hint (seconds); `items` are opaque item identifiers. -/
structure SEBody where
  backoff : Option Nat
  items : List Nat
  has_more : Bool
deriving DecidableEq

/-- `should_backoff(result)` = `"backoff" in result` (line 40-41). -/
def should_backoff (result : SEBody) : Bool := result.backoff.isSome

/-- `custom_wait(retry_state)` (lines 33-37): the hinted wait, `0` if the
response carries no hint. -/
def custom_wait (result : SEBody) : Nat := result.backoff.getD 0

/-- An HTTP response to one `session.get` call. -/
structure HTTPResponse where
  status : Nat
  body : SEBody
deriving DecidableEq

/-- What one invocation of `call` observably does: the returned payload or the
raised status, the number of HTTP requests issued, and the total time slept
between attempts. -/
structure CallResult where
  outcome : Except Nat SEBody
  requests : Nat
  slept : Nat

/-- `call(session, url, params, timeout, max_retries)` (lines 44-73), per the
tenacity iterator semantics documented above: the response to the single
request issued is `responses 0`.  The `.error` case stands for the exception
that propagates after that single request: for a non-2xx status it is the
`HTTPError` from `raise_for_status`; for a 2xx status outside (200, 201)
`raise_for_status` does not raise, the block exits normally with recorded
result `None`, and `should_backoff(None)` raises `TypeError` — again after
exactly one request, with no sleep. -/
def call (responses : Nat → HTTPResponse) (max_retries : Nat) : CallResult :=
  let _ := max_retries
  let r := responses 0
  if r.status = 200 ∨ r.status = 201 then
    { outcome := .ok r.body, requests := 1, slept := 0 }
  else
    { outcome := .error r.status, requests := 1, slept := 0 }

/-- The `while has_more` loop of `fetch_all_single_url` (lines 76-93) with the
page parameter threaded explicitly: issue `call` for the current page, extend
the accumulator with the response's items, break once `params["page"] >= 5`,
otherwise advance the page and take `has_more` from the response body.
`responses p` is the HTTP response for the request with page parameter `p`;
the returned pair carries the collected items (or the propagated raised
status) and the list of page numbers actually requested.  The recursion
terminates because the loop breaks whenever `5 ≤ page` and otherwise
increments `page`. -/
def seWhileLoop (responses : Nat → HTTPResponse) (page : Nat) (has_more : Bool) :
    Except Nat (List Nat) × List Nat :=
  if has_more then
    match (call (fun _ => responses page) 3).outcome with
    | .error e => (.error e, [page])
    | .ok body =>
      if 5 ≤ page then (.ok body.items, [page])
      else
        let rest := seWhileLoop responses (page + 1) body.has_more
        (rest.1.map (body.items ++ ·), page :: rest.2)
  else (.ok [], [])
termination_by 6 - page
decreasing_by omega

/-- `fetch_all_single_url(url, params, session)`: if `params` carries no
`"page"` key the loop starts at page 1 (line 80-81); `has_more` starts
`True`. -/
def fetch_all_single_url (responses : Nat → HTTPResponse) (pageParam : Option Nat) :
    Except Nat (List Nat) × List Nat :=
  seWhileLoop responses (pageParam.getD 1) true

/-! ## Order instances for the sort relation -/

instance : IsTotal Measurement tsDesc :=
  ⟨fun a b => Nat.le_total b.timestamp a.timestamp⟩

instance : IsTrans Measurement tsDesc :=
  ⟨fun _ _ _ hab hbc => Nat.le_trans hbc hab⟩

/-- A concrete worker-pool scenario: the service is the deterministic page
endpoint over a dataset of 137 items, except that page 2's fetch always hits
HTTP 500 and exhausts its 5 retries (so its future stores the `RetryError`). -/
def c2Results : Nat → Except RetryError (List Nat) :=
  fun p =>
    if p = 2 then
      (fetch_page (fun _ => (.error ⟨500⟩ : Except HTTPError (List Nat))) MAX_RETRIES).1
    else .ok (slicePage (List.range 137) p 10)

/-! ## Theorems

First the cross-checks pinning the embedded CPython `random`/`uuid` to
concretely observed CPython behaviour, then general lemmas, then one theorem
per specification claim. -/

theorem seqN_eq (v : Nat) (k : α) : seqN v k = k := by
  unfold seqN; split <;> rfl

theorem genrand_seed42_first : (genrand (seedState 42)).1 = 2746317213 := by rfl

theorem genrand_seed42_second :
    (genrand (genrand (seedState 42)).2).1 = 478163327 := by rfl

theorem uuid5_measurement10 :
    uuid5Codes (measurementName 10) =
      "ad857623-4797-5cb6-82cd-7a8052bda309".data.map Char.toNat := by rfl

theorem uuid5_measurement21 :
    uuid5Codes (measurementName 21) =
      "8bbd0b51-7320-50f3-805c-0163f174d0a7".data.map Char.toNat := by rfl

theorem genLoop_22_timestamps :
    (genLoop none 0 22 (seedState 42)).map (fun m => m.timestamp) =
      [51, 178, 54, 1206, 696, 198, 1098, 740, 163, 333, 1247, 1310, 469, 644,
       542, 1195, 96, 130, 23, 228, 1025, 1247] := by rfl

theorem generate_22_sorted_timestamps :
    (generate_measurements 22 none g0).map (fun m => m.timestamp) =
      [1310, 1247, 1247, 1206, 1195, 1098, 1025, 740, 696, 644, 542, 469, 333,
       228, 198, 178, 163, 130, 96, 54, 51, 23] := by rfl

/-! ### Generator lemmas -/

theorem genLoop_length (did : Option String) (n : Nat) :
    ∀ (i : Nat) (s : MTState), (genLoop did i n s).length = n := by
  induction n with
  | zero => intro i s; rfl
  | succ n ih => intro i s; simp [genLoop, seqN_eq, ih]

theorem generate_length (count : Nat) (did : Option String) (g : MTState) :
    (generate_measurements count did g).length = count := by
  unfold generate_measurements
  rw [(List.perm_insertionSort tsDesc _).length_eq, genLoop_length]

/-! ### Stability of the sort: filtering on a timestamp commutes with
`insertionSort tsDesc`, i.e. equal-timestamp records keep generation order. -/

theorem filter_orderedInsert_pos (p : Measurement → Bool) (a : Measurement)
    (hpa : p a = true) (h : ∀ b, ¬ tsDesc a b → p b = false) :
    ∀ l : List Measurement,
      (List.orderedInsert tsDesc a l).filter p = a :: l.filter p := by
  intro l
  induction l with
  | nil => simp [List.orderedInsert, hpa]
  | cons b l ih =>
    by_cases hr : tsDesc a b
    · simp [List.orderedInsert, hr, hpa]
    · have hb := h b hr
      simp [List.orderedInsert, hr, hb, ih]

theorem filter_orderedInsert_neg (p : Measurement → Bool) (a : Measurement)
    (hpa : p a = false) :
    ∀ l : List Measurement,
      (List.orderedInsert tsDesc a l).filter p = l.filter p := by
  intro l
  induction l with
  | nil => simp [List.orderedInsert, hpa]
  | cons b l ih =>
    by_cases hr : tsDesc a b
    · simp [List.orderedInsert, hr, hpa]
    · simp [List.orderedInsert, hr, List.filter_cons, ih]

theorem filter_insertionSort_ts (t : Nat) :
    ∀ l : List Measurement,
      (List.insertionSort tsDesc l).filter (fun m => m.timestamp == t)
        = l.filter (fun m => m.timestamp == t) := by
  intro l
  induction l with
  | nil => rfl
  | cons a l ih =>
    by_cases hpa : a.timestamp = t
    · rw [List.insertionSort,
        filter_orderedInsert_pos _ a (by simp [hpa])
          (fun b hb => by
            have : a.timestamp < b.timestamp := Nat.lt_of_not_le hb
            simp only [beq_eq_false_iff_ne]
            omega),
        ih]
      simp [hpa]
    · rw [List.insertionSort, filter_orderedInsert_neg _ a (by simp [hpa]), ih]
      simp [hpa]

/-! ### Pagination lemmas -/

theorem slicePage_length (d : List α) (page size : Nat) :
    (slicePage d page size).length = min size (d.length - (page - 1) * size) := by
  simp [slicePage]

theorem slicePage_eq_nil (d : List α) (page size : Nat)
    (h : d.length ≤ (page - 1) * size) : slicePage d page size = [] := by
  unfold slicePage
  rw [List.drop_eq_nil_of_le h, List.take_nil]

theorem flatten_slices_take (d : List α) (s : Nat) :
    ∀ k, ((List.range' 1 k).map (fun p => slicePage d p s)).flatten = d.take (k * s) := by
  intro k
  induction k with
  | zero => simp
  | succ k ih =>
    rw [List.range'_1_concat, List.map_append, List.flatten_append, ih]
    simp only [List.map_cons, List.map_nil, List.flatten_cons, List.flatten_nil,
      List.append_nil, slicePage]
    rw [Nat.succ_mul, List.take_add]
    simp

theorem flatten_empty_from (d : List α) (s : Nat) :
    ∀ (n k : Nat), d.length ≤ k * s →
      ((List.range' (k + 1) n).map (fun p => slicePage d p s)).flatten = [] := by
  intro n
  induction n with
  | zero => simp
  | succ n ih =>
    intro k hk
    rw [List.range'_succ]
    simp only [List.map_cons, List.flatten_cons]
    rw [slicePage_eq_nil d (k + 1) s (by simpa using hk)]
    have hk' : d.length ≤ (k + 1) * s := by
      calc d.length ≤ k * s := hk
        _ ≤ (k + 1) * s := Nat.mul_le_mul_right s (Nat.le_succ k)
    simpa using ih (k + 1) hk'

theorem seq_eq_flatten (d : List α) (s : Nat) :
    ∀ (n k : Nat),
      ((List.range' (k + 1) n).map (fun p => slicePage d p s)).flatten
        = (seqFetchLoop d s (List.range' (k + 1) n)).1 := by
  intro n
  induction n with
  | zero => simp [seqFetchLoop]
  | succ n ih =>
    intro k
    rw [List.range'_succ]
    simp only [List.map_cons, List.flatten_cons, seqFetchLoop]
    by_cases hshort : (slicePage d (k + 1) s).length < s
    · simp only [hshort, if_pos]
      have hlen : d.length ≤ (k + 1) * s := by
        have hsl := slicePage_length d (k + 1) s
        simp only [Nat.add_sub_cancel] at hsl
        rw [Nat.succ_mul]
        omega
      have hrest := flatten_empty_from d s n (k + 1) hlen
      simp [hrest]
    · simp only [hshort, if_neg, not_false_iff]
      have := ih (k + 1)
      simpa using congrArg (slicePage d (k + 1) s ++ ·) this

theorem ingestLoop_det (d : List α) (s : Nat) :
    ∀ (ps : List Nat) (acc : List α),
      ingestEndpointLoop (detResults d s) s ps acc
        = .ok (acc ++ (seqFetchLoop d s ps).1) := by
  intro ps
  induction ps with
  | nil => intro acc; simp [ingestEndpointLoop, seqFetchLoop]
  | cons p rest ih =>
    intro acc
    simp only [ingestEndpointLoop, detResults, seqFetchLoop]
    by_cases h : (slicePage d p s).length < s
    · simp [h]
    · simp [h, ih, List.append_assoc]

theorem seqFetchLoop_nil_items (s : Nat) :
    ∀ ps : List Nat, (seqFetchLoop ([] : List α) s ps).1 = [] := by
  intro ps
  induction ps with
  | nil => rfl
  | cons p rest ih =>
    simp only [seqFetchLoop, slicePage, List.drop_nil, List.take_nil]
    split <;> simp [ih]

/-! ### Page bound of the Stack Exchange pagination loop -/

theorem seWhileLoop_pages (responses : Nat → HTTPResponse) :
    ∀ (n page : Nat) (hm : Bool), 1 ≤ page → page ≤ 5 → 6 - page ≤ n →
      ((seWhileLoop responses page hm).2.all (fun p => decide (1 ≤ p ∧ p ≤ 5)) = true)
      ∧ (seWhileLoop responses page hm).2.length ≤ 6 - page := by
  intro n
  induction n with
  | zero => intro page hm h1 h5 h0; omega
  | succ n ih =>
    intro page hm h1 h5 hn
    unfold seWhileLoop
    cases hm with
    | false => simp
    | true =>
      rcases hcall : (call (fun _ => responses page) 3).outcome with e | body
      · simp only [if_true, hcall]
        refine ⟨by simp; omega, by simp; omega⟩
      · simp only [if_true, hcall]
        by_cases hp : 5 ≤ page
        · simp only [hp, if_pos]
          refine ⟨by simp; omega, by simp; omega⟩
        · simp only [hp, if_neg, not_false_iff]
          have ihh := ih (page + 1) body.has_more (by omega) (by omega) (by omega)
          refine ⟨?_, ?_⟩
          · simp only [List.all_cons, ihh.1, Bool.and_true]
            simp; omega
          · simp only [List.length_cons]
            have := ihh.2
            omega

/-! ## Claim theorems -/

/-- C1 (counterexample): for the deterministic endpoint with `total = 137`,
`size = 10`, `maxPages = 20`, the sequential strategy returns all 137 items,
but the worker-pool strategy (`ingest_endpoint`) processes futures in
completion order and stops at the first short page to complete: under a
completion order in which page 15 (an empty page) completes first, it returns
the empty list — the strategies are not byte-for-byte identical regardless of
completion order. -/
theorem C1_worker_pool_order_counterexample :
    (ingest_measurements (List.range 137) 20 10).1 = List.range 137
    ∧ ingest_endpoint (detResults (List.range 137) 10) 10
        (15 :: (List.range' 1 20).filter (fun p => decide (p ≠ 15))) = .ok []
    ∧ List.range 137 ≠ ([] : List Nat) :=
  ⟨by rfl, by rfl, by decide⟩

/-- C1 (amended): for a deterministic endpoint the task-fan-out strategy and
the sequential strategy always produce byte-for-byte identical ordered item
lists (pages 1..k ascending, truncated at the first short page), and the
worker-pool strategy produces that same list whenever its futures complete in
ascending page order; under other completion orders it may truncate
differently (see the counterexample). -/
theorem C1_strategy_parity_amended (d : List α) (max_pages page_size : Nat) :
    ingest_measurements_async (fun p => some (slicePage d p page_size)) max_pages
        = (ingest_measurements d max_pages page_size).1
    ∧ ingest_endpoint (detResults d page_size) page_size (List.range' 1 max_pages)
        = .ok (ingest_measurements d max_pages page_size).1 := by
  constructor
  · have h := seq_eq_flatten d page_size max_pages 0
    simpa [ingest_measurements_async, ingest_measurements] using h
  · have h := ingestLoop_det d page_size (List.range' 1 max_pages) []
    simpa [ingest_endpoint, ingest_measurements] using h

/-- C2 (counterexample): pages 1 and 3 of a 137-item dataset succeed while
page 2 always returns HTTP 500 and exhausts its `MAX_RETRIES = 5` attempts;
with completion order `[1, 2, 3]`, `ingest_endpoint` re-raises the stored
`RetryError` from `future.result()` and returns no list at all — page 1's ten
successfully fetched items are not in any returned partial result, and the
overall ingestion does crash. -/
theorem C2_crash_counterexample :
    c2Results 1 = .ok (List.range 10)
    ∧ ingest_endpoint c2Results 10 [1, 2, 3] = .error ⟨⟨500⟩⟩ :=
  ⟨by rfl, by rfl⟩

/-- C2 (amended): a page source that always raises a transient `HTTPError` is
called exactly `MAX_RETRIES = 5` times by `fetch_page` and then surfaces
tenacity's `RetryError`; however, when the result loop of `ingest_endpoint`
reaches a future holding such an error, the error propagates out of the
ingestion (the accumulated earlier pages are discarded) instead of being kept
in a partial result. -/
theorem C2_retry_exhaustion_amended (e : HTTPError)
    (results : Nat → Except RetryError (List Nat)) (er : RetryError)
    (p : Nat) (rest : List Nat) (hp : results p = .error er) :
    (fetch_page (fun _ => (.error e : Except HTTPError (List Nat))) MAX_RETRIES).2 = 5
    ∧ (fetch_page (fun _ => (.error e : Except HTTPError (List Nat))) MAX_RETRIES).1
        = .error ⟨e⟩
    ∧ ingest_endpoint results 10 (p :: rest) = .error er := by
  refine ⟨rfl, rfl, ?_⟩
  simp [ingest_endpoint, ingestEndpointLoop, hp]

theorem C2_retry_exhaustion_witness :
    (fetch_page (fun _ => (.error ⟨500⟩ : Except HTTPError (List Nat))) MAX_RETRIES).2 = 5
    ∧ (fetch_page (fun _ => (.error ⟨500⟩ : Except HTTPError (List Nat))) MAX_RETRIES).1
        = .error ⟨⟨500⟩⟩
    ∧ ingest_endpoint (fun _ => (.error ⟨⟨500⟩⟩ : Except RetryError (List Nat)))
        10 [1, 2, 3] = .error ⟨⟨500⟩⟩ :=
  C2_retry_exhaustion_amended ⟨500⟩
    (fun _ => (.error ⟨⟨500⟩⟩ : Except RetryError (List Nat))) ⟨⟨500⟩⟩ 1 [2, 3] rfl

/-- C3 (counterexample): `tieCheck` evaluates the real seed-42 generator at
`count = 22` without a filter: the sorted records at positions 1 and 2 carry
equal timestamps (1247 minutes) but the identifier at position 2
(`8bbd0b51-...`, generation index 21) is strictly smaller than the one at
position 1 (`ad857623-...`, generation index 10) — the tie is NOT broken by
identifier ascending. -/
theorem C3_tie_break_counterexample : tieCheck = true := by rfl

/-- C3 (amended): for every count and optional filter key the generated
dataset is sorted by timestamp descending; records with equal timestamps keep
their generation order (the sort is stable: filtering any fixed timestamp
yields the same subsequence as in the unsorted generation list), which is not
identifier-ascending in general; and the order is identical on every call
with the same count (it does not depend on the incoming module RNG state). -/
theorem C3_sorted_stable_deterministic (count : Nat) (did : Option String)
    (g g' : MTState) :
    (generate_measurements count did g).Pairwise tsDesc
    ∧ (∀ t : Nat, (generate_measurements count did g).filter (fun m => m.timestamp == t)
        = (genLoop did 0 count (seedState 42)).filter (fun m => m.timestamp == t))
    ∧ generate_measurements count did g = generate_measurements count did g' :=
  ⟨List.sorted_insertionSort tsDesc _, fun t => filter_insertionSort_ts t _, rfl⟩

/-- C4: for every dataset `d` and page size `s ≥ 1`, a slice whose start
`(page-1)*s` is at or past the end of `d` is the empty list rather than an
error, and concatenating the slices of pages `1 .. ⌈|d| / s⌉` reconstructs
`d` exactly. -/
theorem C4_pagination_exact (d : List α) (s : Nat) (hs : 1 ≤ s) :
    (∀ page, d.length ≤ (page - 1) * s → slicePage d page s = [])
    ∧ ((List.range' 1 ((d.length + s - 1) / s)).map
        (fun p => slicePage d p s)).flatten = d := by
  refine ⟨fun page h => slicePage_eq_nil d page s h, ?_⟩
  rw [flatten_slices_take]
  apply List.take_of_length_le
  have hq := Nat.div_add_mod (d.length + s - 1) s
  have hr : (d.length + s - 1) % s < s := Nat.mod_lt _ hs
  have hc : (d.length + s - 1) / s * s = s * ((d.length + s - 1) / s) :=
    Nat.mul_comm _ _
  omega

theorem C4_pagination_exact_witness :
    slicePage [0, 1, 2, 3, 4] 4 2 = ([] : List Nat)
    ∧ ((List.range' 1 (([0, 1, 2, 3, 4].length + 2 - 1) / 2)).map
        (fun p => slicePage ([0, 1, 2, 3, 4] : List Nat) p 2)).flatten
        = [0, 1, 2, 3, 4] :=
  ⟨(C4_pagination_exact [0, 1, 2, 3, 4] 2 (by decide)).1 4 (by decide),
   (C4_pagination_exact [0, 1, 2, 3, 4] 2 (by decide)).2⟩

/-- C5: `generate_measurements` seeds the module RNG with the constant 42
before drawing anything, so two calls with the same `count` (and filter) and
arbitrary, possibly different, prior RNG states yield byte-identical record
lists: same ids, same timestamps, same attribute draws, same order. -/
theorem C5_generate_deterministic (count : Nat) (did : Option String)
    (g g' : MTState) :
    generate_measurements count did g = generate_measurements count did g' := rfl

/-- C6: against the generated dataset for `total = 25` with `page_size = 10`
(and the default `max_pages = 5`), the sequential strategy requests exactly
pages 1, 2 and 3 — receiving 10, 10 and 5 items — accumulates the whole
dataset, and never requests page 4. -/
theorem C6_stopping_rule (did : Option String) (g : MTState) :
    ingest_measurements (generate_measurements 25 did g) 5 10
      = (generate_measurements 25 did g, [1, 2, 3])
    ∧ (slicePage (generate_measurements 25 did g) 1 10).length = 10
    ∧ (slicePage (generate_measurements 25 did g) 2 10).length = 10
    ∧ (slicePage (generate_measurements 25 did g) 3 10).length = 5 := by
  have h25 := generate_length 25 did g
  set d := generate_measurements 25 did g with hd
  have l1 : (slicePage d 1 10).length = 10 := by rw [slicePage_length]; omega
  have l2 : (slicePage d 2 10).length = 10 := by rw [slicePage_length]; omega
  have l3 : (slicePage d 3 10).length = 5 := by rw [slicePage_length]; omega
  refine ⟨?_, l1, l2, l3⟩
  show seqFetchLoop d 10 (List.range' 1 5) = (d, [1, 2, 3])
  have hr : List.range' 1 5 = [1, 2, 3, 4, 5] := rfl
  rw [hr]
  simp only [seqFetchLoop, l1, l2, l3]
  norm_num
  show slicePage d 1 10 ++ (slicePage d 2 10 ++ slicePage d 3 10) = d
  simp only [slicePage]
  norm_num
  rw [← List.append_assoc, ← List.take_add, ← List.take_add]
  exact List.take_of_length_le (by omega)

/-- C7: the result-driven backoff policy is configured with
`retry_if_result(should_backoff)` and `wait=custom_wait`, but the `return`
inside the attempt context means the retryer never sees the payload: a 200
response whose body carries an explicit `backoff` hint of 10 is returned
after exactly one request with zero sleep, even though `should_backoff` holds
and `custom_wait` would return 10. -/
theorem C7_backoff_never_retries :
    should_backoff { backoff := some 10, items := [], has_more := true } = true
    ∧ custom_wait { backoff := some 10, items := [], has_more := true } = 10
    ∧ call
        (fun _ =>
          { status := 200,
            body := { backoff := some 10, items := [], has_more := true } })
        3
      = { outcome := .ok { backoff := some 10, items := [], has_more := true },
          requests := 1, slept := 0 } :=
  ⟨rfl, rfl, rfl⟩

/-- C8: the unreliable endpoint fails with HTTP 500 exactly when the fresh
injector draw `u` (from a `random.Random()` sharing no state with the seeded
module generator) satisfies `random() < 0.3` in binary64 arithmetic, and
otherwise returns exactly the deterministic endpoint's page for the same
parameters — in particular the successful payload is the same for every
non-failing draw and every incoming generator state, so failure injection
never perturbs the served data. -/
theorem C8_unreliable_independence (total : Nat) (did : Option String)
    (page size : Nat) (u u' : Nat) (g g' : MTState)
    (hu : maybeFail u = false) (hu' : maybeFail u' = false) :
    get_measurements_unreliable total did page size u g
        = .ok (get_measurements_page total did page size g)
    ∧ get_measurements_unreliable total did page size u g
        = get_measurements_unreliable total did page size u' g'
    ∧ (∀ v, maybeFail v = true →
        get_measurements_unreliable total did page size v g = .error 500) := by
  refine ⟨?_, ?_, fun v hv => ?_⟩
  · simp [get_measurements_unreliable, hu]
  · simp only [get_measurements_unreliable, hu, hu', Bool.false_eq_true, if_false]
    rfl
  · simp [get_measurements_unreliable, hv]

theorem C8_unreliable_independence_witness :
    maybeFail 0 = true
    ∧ maybeFail 9007199254740991 = false
    ∧ get_measurements_unreliable 1 none 1 10 9007199254740991 g0
        = .ok (get_measurements_page 1 none 1 10 g0) :=
  ⟨by decide, by decide,
   (C8_unreliable_independence 1 none 1 10 9007199254740991 9007199254740991 g0 g0
     (by decide) (by decide)).1⟩

/-- C9: when the dataset is empty (`total = 0`), the sequential ingestion
returns the empty item list without raising, and exporting the empty result
still writes the explicit "no data" marker row — one row, not a zero-byte
artifact. -/
theorem C9_empty_ingestion (did : Option String) (g : MTState)
    (max_pages page_size : Nat) :
    generate_measurements 0 did g = []
    ∧ (ingest_measurements (generate_measurements 0 did g) max_pages page_size).1 = []
    ∧ save_to_csv [] = [["No measurements available"]]
    ∧ save_to_csv [] ≠ [] := by
  refine ⟨rfl, ?_, rfl, by simp [save_to_csv]⟩
  show (seqFetchLoop ([] : List Measurement) page_size (List.range' 1 max_pages)).1 = []
  exact seqFetchLoop_nil_items page_size _

/-- C10: for every sequence of service responses, the single-url pagination
loop (started, as by both in-repo callers, without a preset page parameter)
terminates, only ever issues requests with page numbers between 1 and 5, and
fetches at most 5 pages — even when every response reports `has_more = true`.
(Termination itself is witnessed by `seWhileLoop` being accepted as a total
function: the loop breaks whenever `page ≥ 5` and otherwise increments
`page`.) -/
theorem C10_page_bound (responses : Nat → HTTPResponse) :
    (fetch_all_single_url responses none).2.all (fun p => decide (1 ≤ p ∧ p ≤ 5)) = true
    ∧ (fetch_all_single_url responses none).2.length ≤ 5 := by
  have h := seWhileLoop_pages responses 5 1 true (by decide) (by decide) (by decide)
  exact ⟨h.1, h.2⟩
